import Mathlib

/-!
# Verification of the meeting-room reservation scheduling core

Shallow embedding of the scheduling core of the `meetingroom` repository
(Next.js + Prisma). Sources embedded here:

* `src/app/actions/reservations.ts` — `createReservation`,
  `createReservationInline`, `cancelReservation` (non-transactional revision);
* `src/unnamed/part_005` — `validateTimeWindow`, `createReservation`
  (transactional revision), `cancelReservation`;
* `src/app/search/page.tsx` — `overlaps`, `floorSortKey`, availability
  classification in `SearchPage`;
* `src/app/rooms/[id]/page.tsx` — `clampDate`;
* `src/app/actions/scan.ts` — `scanRoom`.

The Prisma store is modelled as a plain list of reservation rows; each Prisma
query/mutation becomes the corresponding list traversal. JavaScript `Date`
instants are modelled as `Nat` milliseconds since the Unix epoch (JS time has
no leap seconds, so `getUTCHours/getUTCMinutes` of an instant `t` are exactly
`t / 60000 % 1440` split into hours and minutes, and two instants share a
`YYYY-MM-DD` UTC date string iff they have the same day index `t / 86400000`).
JavaScript numbers that may be `NaN` are modelled as `Option ℚ` with `none`
playing the role of `NaN`.
-/

/-- Prisma enum `ReservationStatus` (`prisma/migrations/.../migration.sql`). -/
inductive ReservationStatus where
  | CONFIRMED
  | CANCELLED
  | BLOCKED
deriving DecidableEq, Repr

/-- A row of the `Reservation` table. Display-only columns (`title`,
`department`, `cancelReason`, timestamps) are omitted; `headcount` is the
`INTEGER NOT NULL` column. -/
structure Reservation where
  id : String
  roomId : String
  organizerId : String
  startAt : Nat
  endAt : Nat
  status : ReservationStatus
  headcount : Int
deriving DecidableEq, Repr

/-- The `Reservation` table. -/
abbrev Store := List Reservation

/-- `status ∈ [CONFIRMED, BLOCKED]` — the filter used by every overlap query. -/
def activeB (r : Reservation) : Bool :=
  r.status == .CONFIRMED || r.status == .BLOCKED

/-- `overlaps` from `src/app/search/page.tsx`:
`aStart < bEnd && bStart < aEnd` on half-open intervals `[start, end)`. -/
def overlaps (aStart aEnd bStart bEnd : Nat) : Bool :=
  decide (aStart < bEnd) && decide (bStart < aEnd)

/-- The `prisma.reservation.findFirst` overlap query used by every create path:
`roomId` matches, `status ∈ [CONFIRMED, BLOCKED]`, `startAt < endAt`-window
condition `startAt: { lt: endAt }, endAt: { gt: startAt }`. Returns whether a
conflicting row exists. -/
def checkConflict (s : Store) (roomId : String) (startAt endAt : Nat) : Bool :=
  s.any fun r =>
    r.roomId == roomId && activeB r &&
      decide (r.startAt < endAt) && decide (r.endAt > startAt)

/-- The no-overlap invariant of the data model: for every room, reservations
with status CONFIRMED or BLOCKED are pairwise non-overlapping over
`[start, end)`; CANCELLED rows are excluded. Stated as `List.Pairwise` of a
symmetric relation (the overlap predicate `aStart < bEnd ∧ bStart < aEnd` is
symmetric under swapping the two windows). -/
def noOverlapInvariant (s : Store) : Prop :=
  s.Pairwise fun a b =>
    a.roomId = b.roomId → activeB a = true → activeB b = true →
      ¬(a.startAt < b.endAt ∧ b.startAt < a.endAt)

instance : DecidablePred noOverlapInvariant := fun s =>
  List.instDecidablePairwise s

instance {ε α : Type} [DecidableEq ε] [DecidableEq α] :
    DecidableEq (Except ε α) := fun a b =>
  match a, b with
  | .ok x, .ok y =>
    if h : x = y then .isTrue (by rw [h])
    else .isFalse (by intro hc; cases hc; exact h rfl)
  | .ok _, .error _ => .isFalse (by intro h; cases h)
  | .error _, .ok _ => .isFalse (by intro h; cases h)
  | .error e, .error f =>
    if h : e = f then .isTrue (by rw [h])
    else .isFalse (by intro hc; cases hc; exact h rfl)

/-! ## Time-window validation (`validateTimeWindow`, `src/unnamed/part_005`) -/

/-- Error kinds of `validateTimeWindow`, one per `throw new Error(...)` site,
in source order. -/
inductive VErr where
  | invalidOrder
  | misalignedDuration
  | crossDay
  | startOutOfBounds
  | endOutOfBounds
  | startAtUpperBound
deriving DecidableEq, Repr

/-- `d.getTime() + offsetMin * 60 * 1000` — shift an instant to local time. -/
def toLocalMs (offsetMin t : Nat) : Nat := t + offsetMin * 60000

/-- Day index of the local `YYYY-MM-DD` string `toLocalYMD`: two instants
produce equal strings iff their day indices agree. -/
def toLocalDay (offsetMin t : Nat) : Nat := toLocalMs offsetMin t / 86400000

/-- `toLocalMinutes`: `getUTCHours() * 60 + getUTCMinutes()` of the shifted
instant, i.e. minutes past local midnight. -/
def toLocalMinutes (offsetMin t : Nat) : Nat :=
  toLocalMs offsetMin t / 60000 % 1440

/-- `validateTimeWindow(startAt, endAt)` from `src/unnamed/part_005`, with the
checks in source order: strict order, 30-minute alignment
(`diff % (30*60*1000) !== 0`), same local day, start within 08:30–17:30
(510–1050 minutes), end within 08:30–17:30, and finally `17:30` refused as a
start time. `offsetMin` is `APP_TZ_OFFSET_MIN` (default 480). -/
def validateTimeWindow (offsetMin startAt endAt : Nat) : Except VErr Unit :=
  if ¬ startAt < endAt then .error .invalidOrder
  else if (endAt - startAt) % 1800000 ≠ 0 then .error .misalignedDuration
  else if toLocalDay offsetMin startAt ≠ toLocalDay offsetMin endAt then
    .error .crossDay
  else if toLocalMinutes offsetMin startAt < 510 ∨
      toLocalMinutes offsetMin startAt > 1050 then .error .startOutOfBounds
  else if toLocalMinutes offsetMin endAt < 510 ∨
      toLocalMinutes offsetMin endAt > 1050 then .error .endOutOfBounds
  else if toLocalMinutes offsetMin startAt = 1050 then
    .error .startAtUpperBound
  else .ok ()

/-- `clampDate` from `src/app/rooms/[id]/page.tsx`: clamp a `YYYY-MM-DD`
string into `[min, max]` by lexicographic comparison (display layer). -/
def clampDate (ymd min max : String) : String :=
  if ymd < min then min
  else if max < ymd then max
  else ymd

/-! ## Headcount computation (`src/app/actions/reservations.ts`)

The `headcount` form field is modelled as `Option (Option ℚ)`: the outer
`Option` is `optionalString` (`none` = field missing or blank), the inner
`Option ℚ` is the JavaScript `Number(...)` value of the submitted string
(`none` = `NaN`). `attendeeCount` is `attendeeIds.length`. -/

/-- `Math.max(1, x)` on a JavaScript number: `NaN` propagates
(`Math.max(1, NaN) = NaN`). -/
def jsMax1 (v : Option ℚ) : Option ℚ := v.map (max 1)

/-- `attendeeIds.length || 1`. -/
def lengthOr1 (attendeeCount : Nat) : ℚ :=
  if attendeeCount = 0 then 1 else (attendeeCount : ℚ)

/-- `createReservation`'s headcount:
`headcountRaw && !Number.isNaN(Number(headcountRaw)) ?
  Math.max(1, Number(headcountRaw)) : Math.max(1, attendeeIds.length || 1)`. -/
def reservationHeadcount (headcountRaw : Option (Option ℚ))
    (attendeeCount : Nat) : Option ℚ :=
  match headcountRaw with
  | some (some v) => some (max 1 v)
  | some none => some (max 1 (lengthOr1 attendeeCount))
  | none => some (max 1 (lengthOr1 attendeeCount))

/-- `createReservationInline`'s headcount:
`typeof headcountRaw === "string" && headcountRaw ?
  Math.max(1, Number(headcountRaw)) : Math.max(1, attendeeIds.length || 1)`.
Unlike `createReservation` there is no `Number.isNaN` guard, so a present
non-numeric field yields `NaN`. -/
def inlineHeadcount (headcountRaw : Option (Option ℚ))
    (attendeeCount : Nat) : Option ℚ :=
  match headcountRaw with
  | some v => jsMax1 v
  | none => some (max 1 (lengthOr1 attendeeCount))

/-- The `headcount INTEGER NOT NULL` column of the `Reservation` table: a
value can be stored only when it is an actual integer; `NaN` (`none`) and
non-integral numbers are refused by the store layer (Prisma `Int`
validation), failing the whole insert. -/
def persistHeadcount (v : Option ℚ) : Option Int :=
  v.bind fun q => if q.den = 1 then some q.num else none

/-! ## Create operations -/

/-- Outcome of a create call, mirroring the error taxonomy of the source:
`created` (row inserted), `conflictErr` (overlap found — part_005 throws
`"此時段已被預約"`, the non-transactional revision redirects with
`error=conflict`), `invalidWindow` (a `validateTimeWindow` throw), and
`storeFailure` (the store refuses the row, e.g. a non-integer headcount). -/
inductive CreateStatus where
  | created
  | conflictErr
  | invalidWindow (e : VErr)
  | storeFailure
deriving DecidableEq, Repr

/-- `createReservation` from `src/unnamed/part_005`: runs
`validateTimeWindow`, then inside one `prisma.$transaction` re-checks the
overlap query and inserts the new CONFIRMED reservation. The transaction is
modelled as a single atomic step on the store; a throw inside it (conflict or
store failure) rolls back, leaving the store unchanged. The `User` upsert
touches only the `User` table and is not modelled. `headcountNum` is
`Number(formData.get("headcount") || 1)` (`none` = `NaN`). The fresh row id
(Prisma cuid) is the caller-supplied `newId`. -/
def createReservationTx (offsetMin : Nat) (s : Store)
    (newId roomId organizerId : String) (startAt endAt : Nat)
    (headcountNum : Option ℚ) : Store × CreateStatus :=
  match validateTimeWindow offsetMin startAt endAt with
  | .error e => (s, .invalidWindow e)
  | .ok () =>
    if checkConflict s roomId startAt endAt then (s, .conflictErr)
    else
      match persistHeadcount headcountNum with
      | none => (s, .storeFailure)
      | some hc =>
        (s ++ [{ id := newId, roomId := roomId, organizerId := organizerId,
                 startAt := startAt, endAt := endAt,
                 status := .CONFIRMED, headcount := hc }], .created)

/-- Phase 1 of the non-transactional `createReservation` /
`createReservationInline` (`src/app/actions/reservations.ts`): the
`prisma.reservation.findFirst` conflict read. It is a separate store
operation from the insert: no transaction surrounds the two. -/
def createCheckPhase (s : Store) (roomId : String) (startAt endAt : Nat) :
    Bool :=
  checkConflict s roomId startAt endAt

/-- Phase 2 of the non-transactional `createReservation`: acts on the
conflict flag read in phase 1 (possibly against an older store state) and
then runs `prisma.reservation.create`. The attendee `createMany` rows are
append-only associations and are not modelled. -/
def reservationInsertPhase (conflict : Bool) (s : Store)
    (newId roomId organizerId : String) (startAt endAt : Nat)
    (headcountRaw : Option (Option ℚ)) (attendeeCount : Nat) :
    Store × CreateStatus :=
  if conflict then (s, .conflictErr)
  else
    match persistHeadcount (reservationHeadcount headcountRaw attendeeCount)
    with
    | none => (s, .storeFailure)
    | some hc =>
      (s ++ [{ id := newId, roomId := roomId, organizerId := organizerId,
               startAt := startAt, endAt := endAt,
               status := .CONFIRMED, headcount := hc }], .created)

/-- Phase 2 of `createReservationInline`, identical to
`reservationInsertPhase` except for the headcount rule. -/
def inlineInsertPhase (conflict : Bool) (s : Store)
    (newId roomId organizerId : String) (startAt endAt : Nat)
    (headcountRaw : Option (Option ℚ)) (attendeeCount : Nat) :
    Store × CreateStatus :=
  if conflict then (s, .conflictErr)
  else
    match persistHeadcount (inlineHeadcount headcountRaw attendeeCount) with
    | none => (s, .storeFailure)
    | some hc =>
      (s ++ [{ id := newId, roomId := roomId, organizerId := organizerId,
               startAt := startAt, endAt := endAt,
               status := .CONFIRMED, headcount := hc }], .created)

/-- A complete, uninterleaved run of the non-transactional
`createReservation`: phase 2 sees the same store phase 1 read. -/
def createReservationSeq (s : Store) (newId roomId organizerId : String)
    (startAt endAt : Nat) (headcountRaw : Option (Option ℚ))
    (attendeeCount : Nat) : Store × CreateStatus :=
  reservationInsertPhase (createCheckPhase s roomId startAt endAt) s
    newId roomId organizerId startAt endAt headcountRaw attendeeCount

/-- A complete, uninterleaved run of `createReservationInline`. -/
def createInlineSeq (s : Store) (newId roomId organizerId : String)
    (startAt endAt : Nat) (headcountRaw : Option (Option ℚ))
    (attendeeCount : Nat) : Store × CreateStatus :=
  inlineInsertPhase (createCheckPhase s roomId startAt endAt) s
    newId roomId organizerId startAt endAt headcountRaw attendeeCount

/-! ## Cancellation (`cancelReservation`, `src/app/actions/reservations.ts`) -/

/-- `cancelReservation`: `prisma.reservation.updateMany` with
`where: { id, status: { in: [CONFIRMED, BLOCKED] } }` setting
`status: CANCELLED`; if `updated.count === 0` the action throws
`"此預約可能已被取消或不存在"` ("not found or already cancelled") and the
store is unchanged (the update matched nothing). The action reads no acting
user and enforces no ownership restriction. -/
def cancelReservation (s : Store) (reservationId : String) :
    Except String Store :=
  if s.countP (fun r => r.id == reservationId && activeB r) = 0 then
    .error "not found or already cancelled"
  else
    .ok (s.map fun r =>
      if r.id == reservationId && activeB r then { r with status := .CANCELLED }
      else r)

/-! ## Scan recording (`scanRoom`, `src/app/actions/scan.ts`) -/

/-- A row of the append-only `AccessLog` table. -/
structure AccessLog where
  roomId : String
  userId : String
  reservationId : Option String
  action : String
deriving DecidableEq, Repr

/-- The tables touched by `scanRoom`. -/
structure ScanState where
  reservations : Store
  logs : List AccessLog
deriving DecidableEq, Repr

/-- Accumulator step selecting a row with the greatest `startAt` (the row a
`findFirst` with `orderBy: { startAt: "desc" }` returns). -/
def pickLatestStart (best : Option Reservation) (r : Reservation) :
    Option Reservation :=
  match best with
  | none => some r
  | some b => if b.startAt < r.startAt then some r else some b

/-- The `findFirst ... orderBy: { startAt: "desc" }` of `scanRoom`: among the
rows matching `roomId`, `status: CONFIRMED`, `startAt <= now < endAt`, pick
one with the greatest `startAt`; `none` when no row matches. -/
def scanFindActive (rs : Store) (roomId : String) (now : Nat) :
    Option Reservation :=
  (rs.filter fun r =>
      r.roomId == roomId && r.status == .CONFIRMED &&
        decide (r.startAt ≤ now) && decide (now < r.endAt)).foldl
    pickLatestStart none

/-- `scanRoom(roomId)`: looks up the active reservation (if any) and appends
one `AccessLog` row with `reservationId: reservation?.id || null` (the `||`
maps a JS-falsy empty-string id to `null`) and `action: "SCAN"`. No
`Reservation` row is touched. -/
def scanRoom (st : ScanState) (roomId userId : String) (now : Nat) :
    ScanState :=
  let reservation := scanFindActive st.reservations roomId now
  let log : AccessLog :=
    { roomId := roomId, userId := userId,
      reservationId :=
        reservation.bind fun r => if r.id = "" then none else some r.id,
      action := "SCAN" }
  { st with logs := st.logs ++ [log] }

/-! ## Availability classification (`SearchPage`, `src/app/search/page.tsx`) -/

/-- The three availability badges. -/
inductive Availability where
  | AVAILABLE
  | PARTIAL
  | UNAVAILABLE
deriving DecidableEq, Repr

/-- The day query of `SearchPage`: active (CONFIRMED/BLOCKED) reservations
with `startAt < dayEnd` and `endAt > dayStart` (`dayEnd` is the local 23:59
instant), grouped per room (`byRoom`). -/
def dayReservations (s : Store) (roomId : String) (dayStart dayEnd : Nat) :
    Store :=
  s.filter fun r =>
    activeB r && decide (r.startAt < dayEnd) && decide (r.endAt > dayStart) &&
      r.roomId == roomId

/-- The classification in `SearchPage`, with `rs` the room's day list
`dayReservations s roomId dayStart dayEnd`: `hasOverlap` when
`rs.find((r) => overlaps(startAt, endAt, r.start, r.end))` hits,
`hasAnyThatDay` when `rs.length > 0`; `UNAVAILABLE` / `PARTIAL` /
`AVAILABLE` accordingly. -/
def roomAvailability (s : Store) (roomId : String) (dayStart dayEnd : Nat)
    (startAt endAt : Nat) : Availability :=
  if (dayReservations s roomId dayStart dayEnd).any
      (fun r => overlaps startAt endAt r.startAt r.endAt) then .UNAVAILABLE
  else if (dayReservations s roomId dayStart dayEnd).length > 0 then .PARTIAL
  else .AVAILABLE

/-! ## Floor ordering (`floorSortKey` and the room sort,
`src/app/search/page.tsx` / `src/unnamed/part_008`) -/

/-- Result of matching a (trimmed, upper-cased) floor label against the two
regexes of `floorSortKey`: `^B(\d+)(F)?$` (below ground), `^(\d+)(F)?$`
(ground/above), anything else unrecognized. -/
inductive FloorClass where
  | below (n : Nat)
  | above (n : Nat)
  | unknown
deriving DecidableEq, Repr

/-- Decimal value of a nonempty all-digit character list (`Number(m[1])` on
the digits captured by the regex); `none` when empty or not all digits. -/
def digitsToNat? (cs : List Char) : Option Nat :=
  if cs = [] then none
  else if cs.all (·.isDigit) then
    some (cs.foldl (fun a c => a * 10 + (c.toNat - 48)) 0)
  else none

/-- Strip the optional trailing `F` of `(\d+)(F)?`. -/
def stripTrailingF (cs : List Char) : List Char :=
  if cs.getLast? = some 'F' then cs.dropLast else cs

/-- `String.prototype.trim()`: drop leading and trailing whitespace (floor
labels are ASCII). -/
def trimChars (cs : List Char) : List Char :=
  ((cs.dropWhile (·.isWhitespace)).reverse.dropWhile (·.isWhitespace)).reverse

/-- Match a trimmed, upper-cased label against `^B(\d+)(F)?$` then
`^(\d+)(F)?$`. -/
def parseFloorClass (cs : List Char) : FloorClass :=
  match cs with
  | 'B' :: rest =>
    match digitsToNat? (stripTrailingF rest) with
    | some n => .below n
    | none => .unknown
  | cs =>
    match digitsToNat? (stripTrailingF cs) with
    | some n => .above n
    | none => .unknown

/-- The classification a floor label receives in `floorSortKey`: a JS-falsy
label (`null`/`undefined`/`""`) is unrecognized, otherwise the label is
trimmed (`trim()`) and upper-cased (`toUpperCase()`, ASCII) and matched
against the two regexes. -/
def floorClassOf (floor : Option String) : FloorClass :=
  match floor with
  | none => .unknown
  | some f =>
    if f = "" then .unknown
    else parseFloorClass ((trimChars f.data).map Char.toUpper)

/-- `floorSortKey`: `B{n}` maps to `-1000 + n`, `{n}F`/`{n}` to `n`, and
unrecognized labels to `Number.POSITIVE_INFINITY`, modelled as `none`. -/
def floorSortKey (floor : Option String) : Option Int :=
  match floorClassOf floor with
  | .below n => some (-1000 + (n : Int))
  | .above n => some (n : Int)
  | .unknown => none

/-- Strict order on sort keys, `none` being `+∞`: the sign of the JS
subtraction `floorSortKey(a) - floorSortKey(b)` is negative exactly in these
cases. -/
def keyLT (a b : Option Int) : Bool :=
  match a, b with
  | some x, some y => decide (x < y)
  | some _, none => true
  | none, _ => false

/-- A row of the room list as selected by `SearchPage`. -/
structure RoomRow where
  id : String
  name : String
  floor : Option String
  capacity : Option Int
deriving DecidableEq, Repr

/-- The sort comparator
`floorSortKey(a.floor) - floorSortKey(b.floor) ||
 a.name.localeCompare(b.name, "zh-Hant")`, parameterized by the
locale-aware name comparison `nameCmp`. When both keys are finite and
distinct the result is their difference; a finite key sorts before `+∞`
(difference `-Infinity` / `+Infinity`); equal finite keys give `0` and
`+∞ - +∞` gives `NaN`, both JS-falsy, so `||` falls through to `nameCmp`. -/
def roomCompare (nameCmp : String → String → Int) (a b : RoomRow) : Int :=
  match floorSortKey a.floor, floorSortKey b.floor with
  | some ka, some kb => if ka = kb then nameCmp a.name b.name else ka - kb
  | some _, none => -1
  | none, some _ => 1
  | none, none => nameCmp a.name b.name

/-! ## Helper lemmas -/

theorem validateTimeWindow_ok_iff (offsetMin startAt endAt : Nat) :
    validateTimeWindow offsetMin startAt endAt = .ok () ↔
      (startAt < endAt ∧ (endAt - startAt) % 1800000 = 0 ∧
       toLocalDay offsetMin startAt = toLocalDay offsetMin endAt ∧
       510 ≤ toLocalMinutes offsetMin startAt ∧
       toLocalMinutes offsetMin startAt < 1050 ∧
       510 ≤ toLocalMinutes offsetMin endAt ∧
       toLocalMinutes offsetMin endAt ≤ 1050) := by
  unfold validateTimeWindow
  split_ifs with h1 h2 h3 h4 h5 h6 <;> simp <;> omega

theorem validateTimeWindow_ok_lt {offsetMin startAt endAt : Nat}
    (h : validateTimeWindow offsetMin startAt endAt = .ok ()) :
    startAt < endAt :=
  ((validateTimeWindow_ok_iff offsetMin startAt endAt).mp h).1

theorem toLocalMinutes_shift_day (offsetMin t k : Nat) :
    toLocalMinutes offsetMin (t + k * 86400000) = toLocalMinutes offsetMin t := by
  unfold toLocalMinutes toLocalMs
  omega

theorem toLocalDay_shift_day (offsetMin t k : Nat) :
    toLocalDay offsetMin (t + k * 86400000) = toLocalDay offsetMin t + k := by
  unfold toLocalDay toLocalMs
  omega

theorem checkConflict_false_iff (s : Store) (roomId : String)
    (startAt endAt : Nat) :
    checkConflict s roomId startAt endAt = false ↔
      ∀ r ∈ s, ¬(r.roomId = roomId ∧ activeB r = true ∧
        r.startAt < endAt ∧ startAt < r.endAt) := by
  unfold checkConflict
  rw [List.any_eq_false]
  refine forall_congr' fun r => imp_congr_right fun _ => not_congr ?_
  simp [and_assoc]

theorem noOverlap_insert {s : Store} {roomId : String} {startAt endAt : Nat}
    (newId organizerId : String) (hc : Int)
    (hinv : noOverlapInvariant s)
    (hcf : checkConflict s roomId startAt endAt = false) :
    noOverlapInvariant (s ++
      [{ id := newId, roomId := roomId, organizerId := organizerId,
         startAt := startAt, endAt := endAt,
         status := .CONFIRMED, headcount := hc }]) := by
  unfold noOverlapInvariant at *
  rw [List.pairwise_append]
  refine ⟨hinv, List.pairwise_singleton _ _, ?_⟩
  intro a ha b hb
  rw [List.mem_singleton] at hb
  subst hb
  intro hroom hacta _ hov
  rw [checkConflict_false_iff] at hcf
  exact hcf a ha ⟨hroom, hacta, hov.1, hov.2⟩

theorem noOverlap_map_cancel {s : Store} (rid : String)
    (hinv : noOverlapInvariant s) :
    noOverlapInvariant (s.map fun r =>
      if r.id == rid && activeB r then { r with status := .CANCELLED }
      else r) := by
  unfold noOverlapInvariant at *
  refine List.Pairwise.map _ ?_ hinv
  intro a b hab
  by_cases ha : (a.id == rid && activeB a) = true
  · rw [if_pos ha]
    intro _ hacta
    simp [activeB] at hacta
  · rw [if_neg ha]
    by_cases hb' : (b.id == rid && activeB b) = true
    · rw [if_pos hb']
      intro _ _ hactb
      simp [activeB] at hactb
    · rw [if_neg hb']
      exact hab

theorem mem_dayReservations {s : Store} {roomId : String}
    {dayStart dayEnd : Nat} {r : Reservation} :
    r ∈ dayReservations s roomId dayStart dayEnd ↔
      r ∈ s ∧ activeB r = true ∧ r.startAt < dayEnd ∧ r.endAt > dayStart ∧
        r.roomId = roomId := by
  unfold dayReservations
  simp [List.mem_filter, and_assoc]

theorem dayReservations_any_overlap_iff {s : Store} {roomId : String}
    {dayStart dayEnd startAt endAt : Nat} :
    ((dayReservations s roomId dayStart dayEnd).any
        fun r => overlaps startAt endAt r.startAt r.endAt) = true ↔
      ∃ r ∈ s, activeB r = true ∧ r.startAt < dayEnd ∧ r.endAt > dayStart ∧
        r.roomId = roomId ∧ startAt < r.endAt ∧ r.startAt < endAt := by
  rw [List.any_eq_true]
  constructor
  · rintro ⟨r, hr, hov⟩
    rw [mem_dayReservations] at hr
    simp only [overlaps, Bool.and_eq_true, decide_eq_true_eq] at hov
    exact ⟨r, hr.1, hr.2.1, hr.2.2.1, hr.2.2.2.1, hr.2.2.2.2, hov.1, hov.2⟩
  · rintro ⟨r, hr, hact, hd1, hd2, hroom, hov1, hov2⟩
    exact ⟨r, mem_dayReservations.mpr ⟨hr, hact, hd1, hd2, hroom⟩,
      by simp [overlaps, hov1, hov2]⟩

theorem dayReservations_length_pos_iff {s : Store} {roomId : String}
    {dayStart dayEnd : Nat} :
    0 < (dayReservations s roomId dayStart dayEnd).length ↔
      ∃ r ∈ s, activeB r = true ∧ r.startAt < dayEnd ∧ r.endAt > dayStart ∧
        r.roomId = roomId := by
  rw [List.length_pos_iff_exists_mem]
  exact ⟨fun ⟨r, hr⟩ => ⟨r, mem_dayReservations.mp hr⟩,
    fun ⟨r, hr, h⟩ => ⟨r, mem_dayReservations.mpr ⟨hr, h⟩⟩⟩

theorem pickLatestStart_isSome (best : Option Reservation) (r : Reservation) :
    (pickLatestStart best r).isSome = true := by
  cases best with
  | none => rfl
  | some b =>
    show (if b.startAt < r.startAt then some r else some b).isSome = true
    by_cases h : b.startAt < r.startAt
    · rw [if_pos h]; rfl
    · rw [if_neg h]; rfl

theorem foldl_pickLatestStart_eq_none {l : List Reservation}
    {acc : Option Reservation} :
    l.foldl pickLatestStart acc = none ↔ acc = none ∧ l = [] := by
  induction l generalizing acc with
  | nil => simp
  | cons r l ih =>
    rw [List.foldl_cons, ih]
    constructor
    · rintro ⟨h1, -⟩
      have := pickLatestStart_isSome acc r
      rw [h1] at this
      exact absurd this (by simp)
    · rintro ⟨-, h⟩
      exact absurd h (by simp)

theorem foldl_pickLatestStart_mem {l : List Reservation}
    {acc : Option Reservation} {res : Reservation} :
    l.foldl pickLatestStart acc = some res → acc = some res ∨ res ∈ l := by
  induction l generalizing acc with
  | nil => exact fun h => .inl h
  | cons r l ih =>
    intro h
    rcases ih h with h1 | h1
    · cases acc with
      | none =>
        rw [show pickLatestStart none r = some r from rfl,
          Option.some.injEq] at h1
        exact .inr (h1 ▸ List.mem_cons_self r l)
      | some b =>
        have h1' : (if b.startAt < r.startAt then some r else some b)
            = some res := h1
        by_cases hlt : b.startAt < r.startAt
        · rw [if_pos hlt, Option.some.injEq] at h1'
          exact .inr (h1' ▸ List.mem_cons_self r l)
        · rw [if_neg hlt] at h1'
          exact .inl h1'
    · exact .inr (List.mem_cons_of_mem _ h1)

theorem reservationHeadcount_exists_one_le
    (raw : Option (Option ℚ)) (ac : Nat) :
    ∃ v : ℚ, reservationHeadcount raw ac = some v ∧ 1 ≤ v := by
  rcases raw with _ | (_ | v) <;>
    exact ⟨_, rfl, le_max_left _ _⟩

theorem inlineHeadcount_one_le {raw : Option (Option ℚ)} {ac : Nat} {v : ℚ}
    (h : inlineHeadcount raw ac = some v) : 1 ≤ v := by
  rcases raw with _ | (_ | w)
  · rw [inlineHeadcount, Option.some.injEq] at h
    exact h ▸ le_max_left _ _
  · exact absurd h (by simp [inlineHeadcount, jsMax1])
  · rw [inlineHeadcount] at h
    simp only [jsMax1, Option.map_some', Option.some.injEq] at h
    exact h ▸ le_max_left _ _

theorem persistHeadcount_one_le {v : ℚ} {hc : Int} (h1 : 1 ≤ v)
    (h : persistHeadcount (some v) = some hc) : 1 ≤ hc := by
  unfold persistHeadcount at h
  rw [Option.some_bind] at h
  split_ifs at h with hden
  rw [Option.some.injEq] at h
  subst h
  have hv : (v.num : ℚ) = v := by
    rw [← Rat.den_eq_one_iff]
    exact hden
  rw [← hv] at h1
  exact_mod_cast h1

theorem roomAvailability_unavailable_iff (s : Store) (roomId : String)
    (dayStart dayEnd startAt endAt : Nat) :
    roomAvailability s roomId dayStart dayEnd startAt endAt = .UNAVAILABLE ↔
      ((dayReservations s roomId dayStart dayEnd).any
        fun r => overlaps startAt endAt r.startAt r.endAt) = true := by
  constructor
  · intro hav
    by_contra hne
    unfold roomAvailability at hav
    rw [if_neg hne] at hav
    by_cases g2 : (dayReservations s roomId dayStart dayEnd).length > 0
    · rw [if_pos g2] at hav
      exact absurd hav (by simp)
    · rw [if_neg g2] at hav
      exact absurd hav (by simp)
  · intro h
    unfold roomAvailability
    rw [if_pos h]

theorem roomAvailability_partial_iff (s : Store) (roomId : String)
    (dayStart dayEnd startAt endAt : Nat) :
    roomAvailability s roomId dayStart dayEnd startAt endAt = .PARTIAL ↔
      (((dayReservations s roomId dayStart dayEnd).any
        fun r => overlaps startAt endAt r.startAt r.endAt) = false
       ∧ 0 < (dayReservations s roomId dayStart dayEnd).length) := by
  constructor
  · intro hav
    unfold roomAvailability at hav
    by_cases g1 : ((dayReservations s roomId dayStart dayEnd).any
        fun r => overlaps startAt endAt r.startAt r.endAt) = true
    · rw [if_pos g1] at hav
      exact absurd hav (by simp)
    · by_cases g2 : (dayReservations s roomId dayStart dayEnd).length > 0
      · exact ⟨Bool.not_eq_true _ ▸ g1, g2⟩
      · rw [if_neg g1, if_neg g2] at hav
        exact absurd hav (by simp)
  · rintro ⟨h1, h2⟩
    have g1 : ¬ ((dayReservations s roomId dayStart dayEnd).any
        fun r => overlaps startAt endAt r.startAt r.endAt) = true := by
      simp [h1]
    unfold roomAvailability
    rw [if_neg g1, if_pos h2]

theorem roomAvailability_available_iff (s : Store) (roomId : String)
    (dayStart dayEnd startAt endAt : Nat) :
    roomAvailability s roomId dayStart dayEnd startAt endAt = .AVAILABLE ↔
      (dayReservations s roomId dayStart dayEnd).length = 0 := by
  constructor
  · intro hav
    unfold roomAvailability at hav
    by_cases g1 : ((dayReservations s roomId dayStart dayEnd).any
        fun r => overlaps startAt endAt r.startAt r.endAt) = true
    · rw [if_pos g1] at hav
      exact absurd hav (by simp)
    · by_cases g2 : (dayReservations s roomId dayStart dayEnd).length > 0
      · rw [if_neg g1, if_pos g2] at hav
        exact absurd hav (by simp)
      · omega
  · intro hlen
    have hnil : dayReservations s roomId dayStart dayEnd = [] :=
      List.length_eq_zero.mp hlen
    unfold roomAvailability
    rw [hnil]
    simp

/-! ## Claim theorems -/

/-- **C3.** The overlap predicate has exact half-open-interval semantics:
`overlaps` is true iff `aStart < bEnd ∧ bStart < aEnd`; touching windows
(`aEnd = bStart`) never overlap; and concretely, after creating a
reservation on local [10:00,11:00) (UTC instants 7200000/10800000 at offset
480) on a room, a create for [10:30,11:30) on that room fails with a
conflict error while a create for the touching window [11:00,12:00)
succeeds. -/
theorem c3_overlap_semantics :
    (∀ aStart aEnd bStart bEnd : Nat,
      overlaps aStart aEnd bStart bEnd = true ↔
        (aStart < bEnd ∧ bStart < aEnd))
    ∧ (∀ aStart aEnd bEnd : Nat, overlaps aStart aEnd aEnd bEnd = false)
    ∧ (createReservationTx 480 [] "resA" "roomA" "alice"
        7200000 10800000 (some 4)
        = ([{ id := "resA", roomId := "roomA", organizerId := "alice",
              startAt := 7200000, endAt := 10800000,
              status := .CONFIRMED, headcount := 4 }], .created))
    ∧ (createReservationTx 480
        [{ id := "resA", roomId := "roomA", organizerId := "alice",
           startAt := 7200000, endAt := 10800000,
           status := .CONFIRMED, headcount := 4 }]
        "resB" "roomA" "bob" 9000000 12600000 (some 2)
        = ([{ id := "resA", roomId := "roomA", organizerId := "alice",
              startAt := 7200000, endAt := 10800000,
              status := .CONFIRMED, headcount := 4 }], .conflictErr))
    ∧ (createReservationTx 480
        [{ id := "resA", roomId := "roomA", organizerId := "alice",
           startAt := 7200000, endAt := 10800000,
           status := .CONFIRMED, headcount := 4 }]
        "resC" "roomA" "carol" 10800000 14400000 (some 2)
        = ([{ id := "resA", roomId := "roomA", organizerId := "alice",
              startAt := 7200000, endAt := 10800000,
              status := .CONFIRMED, headcount := 4 },
            { id := "resC", roomId := "roomA", organizerId := "carol",
              startAt := 10800000, endAt := 14400000,
              status := .CONFIRMED, headcount := 2 }], .created)) := by
  refine ⟨?_, ?_, ?_, ?_, ?_⟩
  · intro aStart aEnd bStart bEnd
    simp [overlaps]
  · intro aStart aEnd bEnd
    simp [overlaps]
  · decide
  · decide
  · decide

/-- **C6.** `validateTimeWindow` rejects any window whose local start or end
minutes fall outside 08:30–17:30 (510–1050); when the order, alignment and
same-day checks pass, the rejection is the out-of-bounds kind (start checked
first, then end); a start at exactly 17:30 local is always rejected even
though 17:30 is in bounds as an end; concretely, [08:00,09:00) is rejected
out-of-bounds, [17:00,17:30) passes, and a window starting at 17:30 is
rejected (all at offset 480). -/
theorem c6_time_bounds :
    (∀ offsetMin startAt endAt : Nat,
      (toLocalMinutes offsetMin startAt < 510 ∨
       toLocalMinutes offsetMin startAt > 1050 ∨
       toLocalMinutes offsetMin endAt < 510 ∨
       toLocalMinutes offsetMin endAt > 1050) →
      validateTimeWindow offsetMin startAt endAt ≠ .ok ())
    ∧ (∀ offsetMin startAt endAt : Nat,
      startAt < endAt → (endAt - startAt) % 1800000 = 0 →
      toLocalDay offsetMin startAt = toLocalDay offsetMin endAt →
      (toLocalMinutes offsetMin startAt < 510 ∨
       toLocalMinutes offsetMin startAt > 1050) →
      validateTimeWindow offsetMin startAt endAt = .error .startOutOfBounds)
    ∧ (∀ offsetMin startAt endAt : Nat,
      startAt < endAt → (endAt - startAt) % 1800000 = 0 →
      toLocalDay offsetMin startAt = toLocalDay offsetMin endAt →
      510 ≤ toLocalMinutes offsetMin startAt →
      toLocalMinutes offsetMin startAt ≤ 1050 →
      (toLocalMinutes offsetMin endAt < 510 ∨
       toLocalMinutes offsetMin endAt > 1050) →
      validateTimeWindow offsetMin startAt endAt = .error .endOutOfBounds)
    ∧ (∀ offsetMin startAt endAt : Nat,
      toLocalMinutes offsetMin startAt = 1050 →
      validateTimeWindow offsetMin startAt endAt ≠ .ok ())
    ∧ validateTimeWindow 480 0 3600000 = .error .startOutOfBounds
    ∧ validateTimeWindow 480 32400000 34200000 = .ok ()
    ∧ validateTimeWindow 480 34200000 36000000 ≠ .ok () := by
  refine ⟨?_, ?_, ?_, ?_, by decide, by decide, by decide⟩
  · intro offsetMin startAt endAt h hok
    have := (validateTimeWindow_ok_iff offsetMin startAt endAt).mp hok
    omega
  · intro offsetMin startAt endAt h1 h2 h3 h4
    unfold validateTimeWindow
    rw [if_neg (not_not_intro h1), if_neg (not_not_intro h2),
      if_neg (not_not_intro h3), if_pos h4]
  · intro offsetMin startAt endAt h1 h2 h3 h4 h5 h6
    unfold validateTimeWindow
    rw [if_neg (not_not_intro h1), if_neg (not_not_intro h2),
      if_neg (not_not_intro h3), if_neg (by omega :
        ¬ (toLocalMinutes offsetMin startAt < 510 ∨
          toLocalMinutes offsetMin startAt > 1050)), if_pos h6]
  · intro offsetMin startAt endAt h hok
    have := (validateTimeWindow_ok_iff offsetMin startAt endAt).mp hok
    omega

/-- Witness for C6 at concrete inputs (local [08:00,09:00) rejected, local
start 17:30 rejected, both at offset 480). -/
theorem c6_time_bounds_witness :
    validateTimeWindow 480 0 3600000 ≠ .ok ()
    ∧ validateTimeWindow 480 34200000 36000000 ≠ .ok () :=
  ⟨c6_time_bounds.1 480 0 3600000 (by decide),
   c6_time_bounds.2.2.2.1 480 34200000 36000000 (by decide)⟩

/-- **C7 counterexample.** The claim says core validation rejects, with a
distinct out-of-horizon error kind, any window whose start lies more than two
months past today. It does not: the validator (the only validation run by
`createReservation`) has no notion of "today" and no horizon error kind.
Concretely, the window on local day index 57000 (a date in 2126, about a
century past any two-month horizon measured from 2026) at local
[10:00,11:00) passes `validateTimeWindow` and is persisted by
`createReservation`. -/
theorem c7_counterexample :
    validateTimeWindow 480 4924807200000 4924810800000 = .ok ()
    ∧ createReservationTx 480 [] "far" "roomA" "alice"
        4924807200000 4924810800000 (some 2)
        = ([{ id := "far", roomId := "roomA", organizerId := "alice",
              startAt := 4924807200000, endAt := 4924810800000,
              status := .CONFIRMED, headcount := 2 }], .created) := by
  exact ⟨by decide, by decide⟩

/-- **C7 amended.** The core performs no booking-horizon validation:
`validateTimeWindow` takes no "today" input and its verdict is invariant
under shifting the window by any whole number of days, so it can never
reject a window for lying beyond a horizon; the two-month horizon exists
only at the display layer, where `clampDate` silently clamps a requested
date into the `[today, today + 2 months]` range instead of rejecting it. -/
theorem c7_no_horizon_check :
    (∀ offsetMin startAt endAt k : Nat,
      validateTimeWindow offsetMin (startAt + k * 86400000)
          (endAt + k * 86400000)
        = validateTimeWindow offsetMin startAt endAt)
    ∧ (∀ ymd mn mx : String, ymd < mn → clampDate ymd mn mx = mn)
    ∧ (∀ ymd mn mx : String, ¬ ymd < mn → mx < ymd → clampDate ymd mn mx = mx)
    ∧ (∀ ymd mn mx : String, ¬ ymd < mn → ¬ mx < ymd →
        clampDate ymd mn mx = ymd) := by
  refine ⟨?_, ?_, ?_, ?_⟩
  · intro offsetMin startAt endAt k
    simp only [validateTimeWindow, toLocalMinutes_shift_day,
      toLocalDay_shift_day, Nat.add_lt_add_iff_right, Nat.add_sub_add_right,
      ne_eq, Nat.add_right_cancel_iff]
  · intro ymd mn mx h
    simp [clampDate, h]
  · intro ymd mn mx h1 h2
    simp [clampDate, h1, h2]
  · intro ymd mn mx h1 h2
    simp [clampDate, h1, h2]

/-- Witness for the amended C7: shifting the local-[10:00,11:00) window by
57000 days does not change the verdict, and a 2126 date is clamped — not
rejected — by the display layer. -/
theorem c7_no_horizon_check_witness :
    validateTimeWindow 480 (7200000 + 57000 * 86400000)
        (10800000 + 57000 * 86400000)
      = validateTimeWindow 480 7200000 10800000
    ∧ clampDate "2126-01-22" "2026-10-12" "2026-12-12" = "2026-12-12" :=
  ⟨c7_no_horizon_check.1 480 7200000 10800000 57000,
   c7_no_horizon_check.2.2.1 "2126-01-22" "2026-10-12" "2026-12-12"
     (by rw [String.lt_iff_toList_lt]; decide)
     (by rw [String.lt_iff_toList_lt]; decide)⟩

/-- **C1 counterexample.** In the revision of `createReservation` (and
`createReservationInline`) in `src/app/actions/reservations.ts`, the overlap
re-check (`prisma.reservation.findFirst`) and the insert
(`prisma.reservation.create`) are two separate store operations with no
surrounding transaction, so the claim's "single atomic transaction" fails:
under the interleaving A-check, B-check, A-insert, B-insert of two
concurrent calls for the identical free window [10:00,11:00) on room
"roomA" against an initially empty store, both phase-1 reads see no
conflict, both inserts then succeed, and the resulting store violates the
no-overlap invariant (a double-booking). -/
theorem c1_counterexample :
    createCheckPhase [] "roomA" 7200000 10800000 = false
    ∧ reservationInsertPhase false [] "resA" "roomA" "alice"
        7200000 10800000 none 0
        = ([{ id := "resA", roomId := "roomA", organizerId := "alice",
              startAt := 7200000, endAt := 10800000,
              status := .CONFIRMED, headcount := 1 }], .created)
    ∧ reservationInsertPhase false
        [{ id := "resA", roomId := "roomA", organizerId := "alice",
           startAt := 7200000, endAt := 10800000,
           status := .CONFIRMED, headcount := 1 }]
        "resB" "roomA" "bob" 7200000 10800000 none 0
        = ([{ id := "resA", roomId := "roomA", organizerId := "alice",
              startAt := 7200000, endAt := 10800000,
              status := .CONFIRMED, headcount := 1 },
            { id := "resB", roomId := "roomA", organizerId := "bob",
              startAt := 7200000, endAt := 10800000,
              status := .CONFIRMED, headcount := 1 }], .created)
    ∧ ¬ noOverlapInvariant
        [{ id := "resA", roomId := "roomA", organizerId := "alice",
           startAt := 7200000, endAt := 10800000,
           status := .CONFIRMED, headcount := 1 },
         { id := "resB", roomId := "roomA", organizerId := "bob",
           startAt := 7200000, endAt := 10800000,
           status := .CONFIRMED, headcount := 1 }] := by
  refine ⟨by decide, by decide, by decide, by decide⟩

/-- **C1 amended.** In the `part_005` revision of `createReservation` the
overlap re-check and the insert do run inside one `prisma.$transaction`;
modelling that transaction as a single atomic step on the store: when an
active reservation on the room overlaps the window, the call fails with a
conflict error and the store is returned unchanged (nothing is persisted),
and of two creates for the identical (validated) window on the same room
executed as atomic transactions, the one serialized second always fails with
the conflict error — so under atomic execution no double-booking results. In
the non-transactional `src/app/actions/reservations.ts` revision this
guarantee does not hold (see the counterexample). -/
theorem c1_atomic_create :
    ∀ (offsetMin : Nat) (s : Store) (newId roomId organizerId : String)
      (startAt endAt : Nat) (hc : Option ℚ),
      (validateTimeWindow offsetMin startAt endAt = .ok () →
        checkConflict s roomId startAt endAt = true →
        createReservationTx offsetMin s newId roomId organizerId
          startAt endAt hc = (s, .conflictErr))
      ∧ (∀ s', createReservationTx offsetMin s newId roomId organizerId
            startAt endAt hc = (s', .created) →
          ∀ (newId2 organizerId2 : String) (hc2 : Option ℚ),
            createReservationTx offsetMin s' newId2 roomId organizerId2
              startAt endAt hc2 = (s', .conflictErr)) := by
  intro offsetMin s newId roomId organizerId startAt endAt hc
  constructor
  · intro hv hcf
    unfold createReservationTx
    rw [hv]
    simp [hcf]
  · intro s' h newId2 organizerId2 hc2
    unfold createReservationTx at h
    cases hval : validateTimeWindow offsetMin startAt endAt with
    | error e => rw [hval] at h; simp at h
    | ok u =>
      cases u
      rw [hval] at h
      simp only [] at h
      cases hb : checkConflict s roomId startAt endAt with
      | true => rw [hb] at h; simp at h
      | false =>
        rw [hb] at h
        simp only [Bool.false_eq_true, if_false] at h
        cases hp : persistHeadcount hc with
        | none => rw [hp] at h; simp at h
        | some hcv =>
          rw [hp] at h
          simp only [Prod.mk.injEq] at h
          obtain ⟨hs, -⟩ := h
          subst hs
          have hlt : startAt < endAt := validateTimeWindow_ok_lt hval
          have hcc : checkConflict
              (s ++ [{ id := newId, roomId := roomId,
                       organizerId := organizerId, startAt := startAt,
                       endAt := endAt, status := .CONFIRMED,
                       headcount := hcv }]) roomId startAt endAt = true := by
            unfold checkConflict
            rw [List.any_eq_true]
            refine ⟨_, List.mem_append_right _ (List.mem_singleton_self _), ?_⟩
            simp [activeB, hlt]
          unfold createReservationTx
          rw [hval]
          simp [hcc]

/-- Witness for the amended C1: with one CONFIRMED reservation on
[10:00,11:00) on "roomA", an atomic create for the same window fails with
the conflict error and leaves the store unchanged — both for a store already
holding the conflict and as the second of two identical creates. -/
theorem c1_atomic_create_witness :
    createReservationTx 480
      [{ id := "resA", roomId := "roomA", organizerId := "alice",
         startAt := 7200000, endAt := 10800000,
         status := .CONFIRMED, headcount := 4 }]
      "resB" "roomA" "bob" 7200000 10800000 (some 2)
      = ([{ id := "resA", roomId := "roomA", organizerId := "alice",
            startAt := 7200000, endAt := 10800000,
            status := .CONFIRMED, headcount := 4 }], .conflictErr) :=
  (c1_atomic_create 480 [] "resA" "roomA" "alice" 7200000 10800000
      (some 4)).2
    [{ id := "resA", roomId := "roomA", organizerId := "alice",
       startAt := 7200000, endAt := 10800000,
       status := .CONFIRMED, headcount := 4 }]
    (by decide) "resB" "bob" (some 2)

/-- **C2.** The no-overlap invariant — for every room, CONFIRMED/BLOCKED
reservations are pairwise non-overlapping over [start, end), CANCELLED rows
excluded — is preserved by every operation applied to a store satisfying it:
the transactional create, complete runs of the non-transactional create and
inline create, cancellation, and scan recording. -/
theorem c2_no_overlap_preserved :
    ∀ s : Store, noOverlapInvariant s →
      (∀ (offsetMin : Nat) (newId roomId organizerId : String)
        (startAt endAt : Nat) (hc : Option ℚ),
        noOverlapInvariant
          (createReservationTx offsetMin s newId roomId organizerId
            startAt endAt hc).1)
      ∧ (∀ (newId roomId organizerId : String) (startAt endAt : Nat)
          (raw : Option (Option ℚ)) (ac : Nat),
        noOverlapInvariant
          (createReservationSeq s newId roomId organizerId
            startAt endAt raw ac).1)
      ∧ (∀ (newId roomId organizerId : String) (startAt endAt : Nat)
          (raw : Option (Option ℚ)) (ac : Nat),
        noOverlapInvariant
          (createInlineSeq s newId roomId organizerId startAt endAt raw ac).1)
      ∧ (∀ (rid : String) (s' : Store),
        cancelReservation s rid = .ok s' → noOverlapInvariant s')
      ∧ (∀ (logs : List AccessLog) (roomId userId : String) (now : Nat),
        noOverlapInvariant
          (scanRoom ⟨s, logs⟩ roomId userId now).reservations) := by
  intro s hinv
  refine ⟨?_, ?_, ?_, ?_, ?_⟩
  · intro offsetMin newId roomId organizerId startAt endAt hc
    unfold createReservationTx
    cases validateTimeWindow offsetMin startAt endAt with
    | error e => exact hinv
    | ok u =>
      cases u
      cases hb : checkConflict s roomId startAt endAt with
      | true => simpa using hinv
      | false =>
        simp only [Bool.false_eq_true, if_false]
        cases persistHeadcount hc with
        | none => exact hinv
        | some hcv => exact noOverlap_insert newId organizerId hcv hinv hb
  · intro newId roomId organizerId startAt endAt raw ac
    unfold createReservationSeq reservationInsertPhase createCheckPhase
    cases hb : checkConflict s roomId startAt endAt with
    | true => simpa using hinv
    | false =>
      simp only [Bool.false_eq_true, if_false]
      cases persistHeadcount (reservationHeadcount raw ac) with
      | none => exact hinv
      | some hcv => exact noOverlap_insert newId organizerId hcv hinv hb
  · intro newId roomId organizerId startAt endAt raw ac
    unfold createInlineSeq inlineInsertPhase createCheckPhase
    cases hb : checkConflict s roomId startAt endAt with
    | true => simpa using hinv
    | false =>
      simp only [Bool.false_eq_true, if_false]
      cases persistHeadcount (inlineHeadcount raw ac) with
      | none => exact hinv
      | some hcv => exact noOverlap_insert newId organizerId hcv hinv hb
  · intro rid s' h
    unfold cancelReservation at h
    split_ifs at h with hcnt
    rw [Except.ok.injEq] at h
    subst h
    exact noOverlap_map_cancel rid hinv
  · intro logs roomId userId now
    exact hinv

/-- Witness for C2: a concrete store satisfying the invariant still
satisfies it after a touching-window transactional create. -/
theorem c2_no_overlap_preserved_witness :
    noOverlapInvariant
      (createReservationTx 480
        [{ id := "resA", roomId := "roomA", organizerId := "alice",
           startAt := 7200000, endAt := 10800000,
           status := .CONFIRMED, headcount := 4 }]
        "resC" "roomA" "carol" 10800000 14400000 (some 2)).1 :=
  (c2_no_overlap_preserved
    [{ id := "resA", roomId := "roomA", organizerId := "alice",
       startAt := 7200000, endAt := 10800000,
       status := .CONFIRMED, headcount := 4 }]
    (by decide)).1 480 "resC" "roomA" "carol" 10800000 14400000 (some 2)

/-- **C4.** `cancelReservation` succeeds iff the store holds a reservation
with the given id whose status is CONFIRMED or BLOCKED (no ownership
restriction: the action reads no acting user); on success every row with
that id is CANCELLED, all rows (by id) are retained, and a second cancel on
the same id fails with the "not found or already cancelled" error rather
than silently succeeding. -/
theorem c4_cancel_spec :
    ∀ (s : Store) (reservationId : String),
      ((∃ s', cancelReservation s reservationId = .ok s') ↔
        ∃ r ∈ s, r.id = reservationId ∧
          (r.status = .CONFIRMED ∨ r.status = .BLOCKED))
      ∧ ∀ s', cancelReservation s reservationId = .ok s' →
          (∀ r ∈ s', r.id = reservationId → r.status = .CANCELLED)
          ∧ s'.map (fun r => r.id) = s.map (fun r => r.id)
          ∧ cancelReservation s' reservationId
              = .error "not found or already cancelled" := by
  intro s reservationId
  constructor
  · constructor
    · rintro ⟨s', hs'⟩
      unfold cancelReservation at hs'
      split_ifs at hs' with hcnt
      obtain ⟨r, hr, hhit⟩ :=
        List.countP_pos_iff.mp (Nat.pos_of_ne_zero hcnt)
      refine ⟨r, hr, ?_⟩
      simpa [activeB] using hhit
    · rintro ⟨r, hr, hid, hst⟩
      have hpos : s.countP (fun r => r.id == reservationId && activeB r) ≠ 0 :=
        Nat.pos_iff_ne_zero.mp
          (List.countP_pos_iff.mpr ⟨r, hr, by simp [activeB, hid, hst]⟩)
      unfold cancelReservation
      rw [if_neg hpos]
      exact ⟨_, rfl⟩
  · intro s' h
    unfold cancelReservation at h
    split_ifs at h with hcnt
    rw [Except.ok.injEq] at h
    subst h
    refine ⟨?_, ?_, ?_⟩
    · intro r hr hid
      obtain ⟨a, ha, rfl⟩ := List.mem_map.mp hr
      by_cases hhit : (a.id == reservationId && activeB a) = true
      · rw [if_pos hhit]
      · rw [if_neg hhit] at hid ⊢
        have hact : activeB a = false := by
          simpa [hid] using hhit
        unfold activeB at hact
        cases hst : a.status <;> simp [hst] at hact ⊢
    · rw [List.map_map]
      refine List.map_congr_left fun a _ => ?_
      simp only [Function.comp_apply]
      by_cases hhit : (a.id == reservationId && activeB a) = true
      · rw [if_pos hhit]
      · rw [if_neg hhit]
    · have hz : (List.map (fun r =>
          if r.id == reservationId && activeB r
          then { r with status := ReservationStatus.CANCELLED } else r) s).countP
          (fun r => r.id == reservationId && activeB r) = 0 := by
        rw [List.countP_eq_zero]
        intro r hr
        obtain ⟨a, ha, rfl⟩ := List.mem_map.mp hr
        by_cases hhit : (a.id == reservationId && activeB a) = true
        · rw [if_pos hhit]
          simp [activeB]
        · rw [if_neg hhit]
          simpa using hhit
      unfold cancelReservation
      rw [if_pos hz]

/-- Witness for C4: cancelling the CONFIRMED reservation "resA" succeeds,
and a second cancel on the resulting store fails with the "not found or
already cancelled" error. -/
theorem c4_cancel_spec_witness :
    cancelReservation
      [{ id := "resA", roomId := "roomA", organizerId := "alice",
         startAt := 7200000, endAt := 10800000,
         status := .CANCELLED, headcount := 4 }] "resA"
      = .error "not found or already cancelled" :=
  ((c4_cancel_spec
      [{ id := "resA", roomId := "roomA", organizerId := "alice",
         startAt := 7200000, endAt := 10800000,
         status := .CONFIRMED, headcount := 4 }] "resA").2
    [{ id := "resA", roomId := "roomA", organizerId := "alice",
       startAt := 7200000, endAt := 10800000,
       status := .CANCELLED, headcount := 4 }]
    (by decide)).2.2

example : floorSortKey (some "B1") = some (-999) := by decide
example : floorSortKey (some "2F") = some 2 := by decide
example : floorSortKey (some " b3f ") = some (-997) := by decide
example : floorSortKey (some "G") = none := by decide
example : floorSortKey (some "B2000") = some 1000 := by decide

/-- **C5.** Availability classification of `SearchPage`: a room is
UNAVAILABLE iff at least one active (CONFIRMED/BLOCKED) reservation of the
queried day overlaps the requested window; PARTIAL iff the room has at least
one active reservation that day but none overlapping the window; AVAILABLE
iff it has no active reservation that day. Concretely (on the day window
[0, 23:59) with instants in ms): a room with a reservation at [09:00,10:00)
queried for [14:00,15:00) yields PARTIAL, queried for [09:30,10:00) yields
UNAVAILABLE, and a room with zero reservations that day yields AVAILABLE. -/
theorem c5_availability :
    (∀ (s : Store) (roomId : String) (dayStart dayEnd startAt endAt : Nat),
      (roomAvailability s roomId dayStart dayEnd startAt endAt = .UNAVAILABLE
        ↔ ∃ r ∈ s, activeB r = true ∧ r.startAt < dayEnd ∧
            r.endAt > dayStart ∧ r.roomId = roomId ∧
            startAt < r.endAt ∧ r.startAt < endAt)
      ∧ (roomAvailability s roomId dayStart dayEnd startAt endAt = .PARTIAL
        ↔ ((∃ r ∈ s, activeB r = true ∧ r.startAt < dayEnd ∧
              r.endAt > dayStart ∧ r.roomId = roomId)
           ∧ ¬ ∃ r ∈ s, activeB r = true ∧ r.startAt < dayEnd ∧
              r.endAt > dayStart ∧ r.roomId = roomId ∧
              startAt < r.endAt ∧ r.startAt < endAt))
      ∧ (roomAvailability s roomId dayStart dayEnd startAt endAt = .AVAILABLE
        ↔ ¬ ∃ r ∈ s, activeB r = true ∧ r.startAt < dayEnd ∧
            r.endAt > dayStart ∧ r.roomId = roomId))
    ∧ roomAvailability
        [{ id := "r9", roomId := "roomA", organizerId := "alice",
           startAt := 32400000, endAt := 36000000,
           status := .CONFIRMED, headcount := 2 }]
        "roomA" 0 86340000 50400000 54000000 = .PARTIAL
    ∧ roomAvailability
        [{ id := "r9", roomId := "roomA", organizerId := "alice",
           startAt := 32400000, endAt := 36000000,
           status := .CONFIRMED, headcount := 2 }]
        "roomA" 0 86340000 34200000 36000000 = .UNAVAILABLE
    ∧ roomAvailability [] "roomA" 0 86340000 50400000 54000000
        = .AVAILABLE := by
  refine ⟨?_, by decide, by decide, by decide⟩
  intro s roomId dayStart dayEnd startAt endAt
  refine ⟨?_, ?_, ?_⟩
  · rw [roomAvailability_unavailable_iff, dayReservations_any_overlap_iff]
  · rw [roomAvailability_partial_iff]
    constructor
    · rintro ⟨h1, h2⟩
      refine ⟨dayReservations_length_pos_iff.mp h2, fun hx => ?_⟩
      have := dayReservations_any_overlap_iff.mpr hx
      rw [h1] at this
      exact Bool.false_ne_true this
    · rintro ⟨h1, h2⟩
      refine ⟨?_, dayReservations_length_pos_iff.mpr h1⟩
      cases hb : (dayReservations s roomId dayStart dayEnd).any
          fun r => overlaps startAt endAt r.startAt r.endAt with
      | false => rfl
      | true => exact absurd (dayReservations_any_overlap_iff.mp hb) h2
  · rw [roomAvailability_available_iff]
    constructor
    · intro h hx
      have := dayReservations_length_pos_iff.mpr hx
      omega
    · intro hx
      by_contra hne
      have : 0 < (dayReservations s roomId dayStart dayEnd).length := by omega
      exact hx (dayReservations_length_pos_iff.mp this)

/-- Witness for C5 applying the UNAVAILABLE characterization at a concrete
store and window. -/
theorem c5_availability_witness :
    roomAvailability
        [{ id := "r9", roomId := "roomA", organizerId := "alice",
           startAt := 32400000, endAt := 36000000,
           status := .CONFIRMED, headcount := 2 }]
        "roomA" 0 86340000 34200000 36000000 = .UNAVAILABLE ↔
      ∃ r ∈ [{ id := "r9", roomId := "roomA", organizerId := "alice",
               startAt := 32400000, endAt := 36000000,
               status := ReservationStatus.CONFIRMED, headcount := 2 }],
        activeB r = true ∧ r.startAt < 86340000 ∧ r.endAt > 0 ∧
          r.roomId = "roomA" ∧ 34200000 < r.endAt ∧ r.startAt < 36000000 :=
  (c5_availability.1
      [{ id := "r9", roomId := "roomA", organizerId := "alice",
         startAt := 32400000, endAt := 36000000,
         status := .CONFIRMED, headcount := 2 }]
      "roomA" 0 86340000 34200000 36000000).1

/-- **C8.** `scanRoom` appends exactly one `AccessLog` row (with the scanned
room, the acting user and action `"SCAN"`), whose reservation link is set
iff some CONFIRMED reservation on that room contains the current instant
(`startAt <= now < endAt`) — a scan with no matching reservation is still
recorded with a null link — and no `Reservation` row is mutated. (The
hypothesis that row ids are nonempty reflects that Prisma cuids are never
the empty string, which JavaScript `||` would coalesce to null.) -/
theorem c8_scan_spec :
    ∀ (st : ScanState) (roomId userId : String) (now : Nat),
      (∀ r ∈ st.reservations, r.id ≠ "") →
      (scanRoom st roomId userId now).reservations = st.reservations
      ∧ (scanRoom st roomId userId now).logs
          = st.logs ++
            [{ roomId := roomId, userId := userId,
               reservationId := (scanFindActive st.reservations roomId now).bind
                 fun r => if r.id = "" then none else some r.id,
               action := "SCAN" }]
      ∧ (((scanFindActive st.reservations roomId now).bind
            fun r => if r.id = "" then none else some r.id).isSome = true ↔
          ∃ r ∈ st.reservations, r.roomId = roomId ∧
            r.status = .CONFIRMED ∧ r.startAt ≤ now ∧ now < r.endAt) := by
  intro st roomId userId now hids
  refine ⟨rfl, rfl, ?_⟩
  constructor
  · intro h
    cases hf : scanFindActive st.reservations roomId now with
    | none => rw [hf] at h; exact absurd h (by simp)
    | some r =>
      unfold scanFindActive at hf
      rcases foldl_pickLatestStart_mem hf with h1 | h1
      · exact absurd h1 (by simp)
      · obtain ⟨hr, hp⟩ := List.mem_filter.mp h1
        simp only [Bool.and_eq_true, beq_iff_eq, decide_eq_true_eq] at hp
        exact ⟨r, hr, hp.1.1.1, hp.1.1.2, hp.1.2, hp.2⟩
  · rintro ⟨r, hr, hroom, hst, h1, h2⟩
    have hrf : r ∈ st.reservations.filter fun r =>
        r.roomId == roomId && r.status == .CONFIRMED &&
          decide (r.startAt ≤ now) && decide (now < r.endAt) :=
      List.mem_filter.mpr ⟨hr, by simp [hroom, hst, h1, h2]⟩
    cases hf : scanFindActive st.reservations roomId now with
    | none =>
      unfold scanFindActive at hf
      rw [foldl_pickLatestStart_eq_none] at hf
      rw [hf.2] at hrf
      exact absurd hrf (by simp)
    | some r' =>
      unfold scanFindActive at hf
      rcases foldl_pickLatestStart_mem hf with h1' | h1'
      · exact absurd h1' (by simp)
      · have hr's : r' ∈ st.reservations := (List.mem_filter.mp h1').1
        have hne : r'.id ≠ "" := hids r' hr's
        rw [Option.some_bind, if_neg hne]
        rfl

/-- Witness for C8: scanning "roomA" at an instant inside its CONFIRMED
reservation leaves the `Reservation` table untouched. -/
theorem c8_scan_spec_witness :
    (scanRoom
      { reservations :=
          [{ id := "resA", roomId := "roomA", organizerId := "alice",
             startAt := 7200000, endAt := 10800000,
             status := .CONFIRMED, headcount := 2 }],
        logs := [] } "roomA" "bob" 9000000).reservations
      = [{ id := "resA", roomId := "roomA", organizerId := "alice",
           startAt := 7200000, endAt := 10800000,
           status := .CONFIRMED, headcount := 2 }] :=
  (c8_scan_spec
    { reservations :=
        [{ id := "resA", roomId := "roomA", organizerId := "alice",
           startAt := 7200000, endAt := 10800000,
           status := .CONFIRMED, headcount := 2 }],
      logs := [] } "roomA" "bob" 9000000 (by decide)).1

/-- **C9 counterexample.** The claim says below-ground labels (B1, B2, ...)
sort before ground/above-ground labels (1F, 2F, ...). `floorSortKey` maps
`B{n}` to `-1000 + n`, so the below-ground label "B2000" gets key 1000 and
sorts *after* "1F" (key 1): the above-ground room strictly precedes the
below-ground one in the sort order. -/
theorem c9_counterexample :
    floorClassOf (some "B2000") = .below 2000
    ∧ floorClassOf (some "1F") = .above 1
    ∧ keyLT (floorSortKey (some "1F")) (floorSortKey (some "B2000"))
        = true := by
  refine ⟨by decide, by decide, by decide⟩

/-- **C9 amended.** Room ordering by `floorSortKey` then name: below-ground
labels `B{n}` sort before all ground/above-ground labels provided `n ≤ 999`
(for `n ≥ 1000` the key `-1000 + n` overflows into the above-ground range);
within each group keys ascend with the floor number; unrecognized or missing
labels sort after every recognized label; and rooms whose floor keys are
equal (including two unrecognized floors, where the JS key difference is
`NaN`, which is falsy) are ordered by the locale-aware name comparison. -/
theorem c9_floor_ordering :
    (∀ (a b : Option String) (n m : Nat),
      floorClassOf a = .below n → n ≤ 999 → floorClassOf b = .above m →
      keyLT (floorSortKey a) (floorSortKey b) = true)
    ∧ (∀ (a b : Option String) (n m : Nat),
      floorClassOf a = .below n → floorClassOf b = .below m → n < m →
      keyLT (floorSortKey a) (floorSortKey b) = true)
    ∧ (∀ (a b : Option String) (n m : Nat),
      floorClassOf a = .above n → floorClassOf b = .above m → n < m →
      keyLT (floorSortKey a) (floorSortKey b) = true)
    ∧ (∀ (a b : Option String) (n : Nat),
      (floorClassOf a = .below n ∨ floorClassOf a = .above n) →
      floorClassOf b = .unknown →
      keyLT (floorSortKey a) (floorSortKey b) = true)
    ∧ (∀ (nameCmp : String → String → Int) (a b : RoomRow),
      floorSortKey a.floor = floorSortKey b.floor →
      roomCompare nameCmp a b = nameCmp a.name b.name) := by
  refine ⟨?_, ?_, ?_, ?_, ?_⟩
  · intro a b n m ha hn hb
    simp only [floorSortKey, ha, hb, keyLT, decide_eq_true_eq]
    omega
  · intro a b n m ha hb hnm
    simp only [floorSortKey, ha, hb, keyLT, decide_eq_true_eq]
    omega
  · intro a b n m ha hb hnm
    simp only [floorSortKey, ha, hb, keyLT, decide_eq_true_eq]
    omega
  · intro a b n ha hb
    rcases ha with ha | ha <;> simp only [floorSortKey, ha, hb, keyLT]
  · intro nameCmp a b h
    cases hA : floorSortKey a.floor with
    | none =>
      cases hB : floorSortKey b.floor with
      | none => simp [roomCompare, hA, hB]
      | some kb => rw [hA, hB] at h; exact absurd h (by simp)
    | some ka =>
      cases hB : floorSortKey b.floor with
      | none => rw [hA, hB] at h; exact absurd h (by simp)
      | some kb =>
        rw [hA, hB, Option.some.injEq] at h
        simp [roomCompare, hA, hB, h]

/-- Witness for the amended C9: the trimmed, upper-cased label "b1 " parses
below-ground with number 1 and precedes "2F" in the sort order. -/
theorem c9_floor_ordering_witness :
    keyLT (floorSortKey (some "b1 ")) (floorSortKey (some "2F")) = true :=
  c9_floor_ordering.1 (some "b1 ") (some "2F") 1 2 (by decide) (by decide)
    (by decide)

/-- **C10.** Every reservation row persisted by `createReservation` or
`createReservationInline` has headcount >= 1: a submitted numeric headcount
is used but floored at 1 (`Math.max(1, ...)`); a missing field — and, in
`createReservation` only, a non-numeric one — defaults to the number of
selected attendee ids, or to 1 when none were selected; in
`createReservationInline` a present non-numeric field yields NaN, which the
INTEGER store column refuses, so no row is persisted in that case. -/
theorem c10_headcount :
    (∀ (raw : Option (Option ℚ)) (ac : Nat),
      ∃ v : ℚ, reservationHeadcount raw ac = some v ∧ 1 ≤ v)
    ∧ (∀ (v : ℚ) (ac : Nat),
      reservationHeadcount (some (some v)) ac = some (max 1 v)
      ∧ inlineHeadcount (some (some v)) ac = some (max 1 v))
    ∧ (∀ ac : Nat, 1 ≤ ac →
      reservationHeadcount none ac = some (ac : ℚ)
      ∧ inlineHeadcount none ac = some (ac : ℚ))
    ∧ (reservationHeadcount none 0 = some 1 ∧ inlineHeadcount none 0 = some 1)
    ∧ (∀ ac : Nat,
      reservationHeadcount (some none) ac = reservationHeadcount none ac)
    ∧ (∀ ac : Nat, inlineHeadcount (some none) ac = none)
    ∧ (∀ (conflict : Bool) (s : Store) (newId roomId organizerId : String)
        (startAt endAt : Nat) (raw : Option (Option ℚ)) (ac : Nat),
      ∀ r ∈ (reservationInsertPhase conflict s newId roomId organizerId
          startAt endAt raw ac).1, r ∈ s ∨ 1 ≤ r.headcount)
    ∧ (∀ (conflict : Bool) (s : Store) (newId roomId organizerId : String)
        (startAt endAt : Nat) (raw : Option (Option ℚ)) (ac : Nat),
      ∀ r ∈ (inlineInsertPhase conflict s newId roomId organizerId
          startAt endAt raw ac).1, r ∈ s ∨ 1 ≤ r.headcount)
    ∧ (∀ (s : Store) (newId roomId organizerId : String)
        (startAt endAt : Nat) (ac : Nat),
      inlineInsertPhase false s newId roomId organizerId startAt endAt
        (some none) ac = (s, .storeFailure)) := by
  refine ⟨reservationHeadcount_exists_one_le, ?_, ?_, ?_, ?_, ?_, ?_, ?_, ?_⟩
  · intro v ac
    exact ⟨rfl, rfl⟩
  · intro ac hac
    have hne : ac ≠ 0 := by omega
    have hq : (1 : ℚ) ≤ (ac : ℚ) := by exact_mod_cast hac
    constructor
    · rw [reservationHeadcount]
      rw [lengthOr1, if_neg hne, max_eq_right hq]
    · rw [inlineHeadcount]
      rw [lengthOr1, if_neg hne, max_eq_right hq]
  · exact ⟨rfl, rfl⟩
  · intro ac
    rfl
  · intro ac
    rfl
  · intro conflict s newId roomId organizerId startAt endAt raw ac r hr
    cases conflict with
    | true => exact .inl (by simpa [reservationInsertPhase] using hr)
    | false =>
      obtain ⟨v, hv, hv1⟩ := reservationHeadcount_exists_one_le raw ac
      unfold reservationInsertPhase at hr
      rw [hv] at hr
      cases hp : persistHeadcount (some v) with
      | none => rw [hp] at hr; exact .inl (by simpa using hr)
      | some hc =>
        rw [hp] at hr
        simp only [Bool.false_eq_true, if_false, List.mem_append,
          List.mem_singleton] at hr
        rcases hr with hr | hr
        · exact .inl hr
        · exact .inr (hr ▸ persistHeadcount_one_le hv1 hp)
  · intro conflict s newId roomId organizerId startAt endAt raw ac r hr
    cases conflict with
    | true => exact .inl (by simpa [inlineInsertPhase] using hr)
    | false =>
      unfold inlineInsertPhase at hr
      cases hv : inlineHeadcount raw ac with
      | none => rw [hv] at hr; exact .inl (by simpa [persistHeadcount] using hr)
      | some v =>
        rw [hv] at hr
        cases hp : persistHeadcount (some v) with
        | none => rw [hp] at hr; exact .inl (by simpa using hr)
        | some hc =>
          rw [hp] at hr
          simp only [Bool.false_eq_true, if_false, List.mem_append,
            List.mem_singleton] at hr
          rcases hr with hr | hr
          · exact .inl hr
          · exact .inr
              (hr ▸ persistHeadcount_one_le (inlineHeadcount_one_le hv) hp)
  · intro s newId roomId organizerId startAt endAt ac
    rfl

/-- Witness for C10: with a missing headcount field and three selected
attendees, both creates compute headcount 3. -/
theorem c10_headcount_witness :
    reservationHeadcount none 3 = some ((3 : Nat) : ℚ)
    ∧ inlineHeadcount none 3 = some ((3 : Nat) : ℚ) :=
  c10_headcount.2.2.1 3 (by norm_num)
